/-
Verification development for the seasonal forecasting service (forecast.py).
The Python source is shallowly embedded: dates become an explicit calendar
structure with day-count conversions, pandas dataframes become lists of
records, scikit-learn simple linear regression becomes its exact closed
form over the rationals, and the Flask route bodies become pure functions
from the fetched record snapshot to the response value.
-/
import Mathlib

attribute [local semireducible] Rat.add Rat.mul Rat.sub Rat.inv

namespace Forecast

/-- Calendar date, mirroring the date part of a pandas Timestamp. -/
structure Date where
  year : Int
  month : Nat
  day : Nat
deriving DecidableEq, Repr

/-- Gregorian leap-year test. -/
def isLeap (y : Int) : Bool :=
  Int.emod y 4 == 0 && (Int.emod y 100 != 0 || Int.emod y 400 == 0)

/-- Number of days in a calendar month. -/
def daysInMonth (y : Int) (m : Nat) : Nat :=
  if m = 2 then (if isLeap y then 29 else 28)
  else if m = 4 || m = 6 || m = 9 || m = 11 then 30
  else 31

/-- Days since 1970-01-01 (proleptic Gregorian, civil-from-days algorithm). -/
def toDays (d : Date) : Int :=
  let y : Int := if d.month ≤ 2 then d.year - 1 else d.year
  let era : Int := Int.ediv y 400
  let yoe : Int := y - era * 400
  let mp : Int := Int.emod ((d.month : Int) + 9) 12
  let doy : Int := Int.ediv (153 * mp + 2) 5 + (d.day : Int) - 1
  let doe : Int := yoe * 365 + Int.ediv yoe 4 - Int.ediv yoe 100 + doy
  era * 146097 + doe - 719468

/-- Inverse of toDays: the calendar date of a day count since 1970-01-01. -/
def ofDays (z0 : Int) : Date :=
  let z := z0 + 719468
  let era := Int.ediv z 146097
  let doe := z - era * 146097
  let yoe := Int.ediv (doe - Int.ediv doe 1460 + Int.ediv doe 36524 - Int.ediv doe 146096) 365
  let y := yoe + era * 400
  let doy := doe - (365 * yoe + Int.ediv yoe 4 - Int.ediv yoe 100)
  let mp := Int.ediv (5 * doy + 2) 153
  let d := doy - Int.ediv (153 * mp + 2) 5 + 1
  let m := if mp < 10 then mp + 3 else mp - 9
  ⟨if m ≤ 2 then y + 1 else y, m.toNat, d.toNat⟩

/-- pandas DateOffset by months: shifts the month, clamping the day to the
target month length. -/
def addMonths (n : Int) (d : Date) : Date :=
  let t : Int := d.year * 12 + ((d.month : Int) - 1) + n
  let y : Int := Int.ediv t 12
  let m : Nat := (Int.emod t 12 + 1).toNat
  ⟨y, m, min d.day (daysInMonth y m)⟩

/-- Inclusive daily range between two dates, as produced by pandas
date_range with daily frequency. -/
def dateRange (a b : Date) : List Date :=
  let n : Int := toDays b - toDays a + 1
  if n ≤ 0 then [] else (List.range n.toNat).map (fun i => ofDays (toDays a + (i : Int)))

/-- Two-digit zero padding, as in strftime. -/
def pad2 (n : Nat) : String :=
  if n < 10 then "0" ++ toString n else toString n

/-- strftime with format %Y-%m-%d. -/
def formatDate (d : Date) : String :=
  toString d.year ++ "-" ++ pad2 d.month ++ "-" ++ pad2 d.day

/-- Earliest date of a list (pandas Series.min); the default for the empty
list is never reached by the callers, which guard for nonempty data. -/
def minDate (l : List Date) : Date :=
  match l with
  | [] => ⟨1970, 1, 1⟩
  | h :: t => t.foldl (fun a b => if toDays b < toDays a then b else a) h

/-- Latest date of a list (pandas Series.max); same empty-list convention as
minDate. -/
def maxDate (l : List Date) : Date :=
  match l with
  | [] => ⟨1970, 1, 1⟩
  | h :: t => t.foldl (fun a b => if toDays a < toDays b then b else a) h

/-- A normalized sales record (one row of the dataframe built by
get_sales_data). -/
structure SRecord where
  date : Date
  total_php : Rat
  quantity : Rat
  category : String
deriving DecidableEq, Repr

/-- A raw Firestore document: each field is present or absent. The date
field is the raw string. -/
structure RawDoc where
  date : Option String
  total_php : Option Rat
  quantity : Option Rat
  category : Option String
deriving DecidableEq, Repr

/-- Split a character list at dash characters. -/
def splitDashAux : List Char → List Char → List (List Char)
  | [], cur => [cur.reverse]
  | c :: rest, cur =>
    if c = '-' then cur.reverse :: splitDashAux rest []
    else splitDashAux rest (c :: cur)

/-- Read a nonempty all-digit character list as a number. -/
def natOfDigitsGo : List Char → Nat → Option Nat
  | [], acc => some acc
  | c :: rest, acc =>
    if c.isDigit then natOfDigitsGo rest (acc * 10 + (c.toNat - 48)) else none

/-- Read a digit string, rejecting the empty string. -/
def natOfDigits (cs : List Char) : Option Nat :=
  if cs.isEmpty then none else natOfDigitsGo cs 0

/-- Parse a YYYY-MM-DD date string; anything else coerces to NaT (none),
mirroring pd.to_datetime with errors coerce on this service's data. -/
def parseDate (s : String) : Option Date :=
  match splitDashAux s.data [] with
  | [ys, ms, ds] =>
    match natOfDigits ys, natOfDigits ms, natOfDigits ds with
    | some y, some m, some d =>
      if 1 ≤ m ∧ m ≤ 12 ∧ 1 ≤ d ∧ d ≤ daysInMonth (y : Int) m then
        some ⟨(y : Int), m, d⟩
      else none
    | _, _, _ => none
  | _ => none

/-- The season column added by get_sales_data. -/
def seasonOf (m : Nat) : String :=
  if [12, 1, 2, 3, 4, 5].contains m then "Dry Season" else "Rainy Season"

/-- Insert a record into a date-sorted list, keeping earlier equal dates
first. -/
def insertByDate (r : SRecord) : List SRecord → List SRecord
  | [] => [r]
  | h :: t => if toDays r.date ≤ toDays h.date then r :: h :: t else h :: insertByDate r t

/-- Sort records ascending by date (df.sort_values on the date column). -/
def sortByDate (l : List SRecord) : List SRecord :=
  l.foldr insertByDate []

/-- Projection of the raw documents that carry all four required fields
(the list named data in get_sales_data). -/
def presentFields (docs : List RawDoc) : List (String × Rat × Rat × String) :=
  docs.filterMap (fun doc =>
    match doc.date, doc.total_php, doc.quantity, doc.category with
    | some d, some t, some q, some c => some (d, t, q, c)
    | _, _, _, _ => none)

/-- get_sales_data: keep documents with all four fields, parse dates with
coercion to NaT, drop unparsable rows, and sort by date. When no document
has all four fields, the dataframe built from the empty list has no date
column, so the date access raises a KeyError; this is modelled as the
error case. An empty row set after dropping NaT dates is returned as an
ordinary empty list. -/
def getSalesData (docs : List RawDoc) : Except String (List SRecord) :=
  let data := presentFields docs
  if data.isEmpty then Except.error "KeyError: date"
  else
    Except.ok (sortByDate (data.filterMap (fun e =>
      (parseDate e.1).map (fun dd => SRecord.mk dd e.2.1 e.2.2.1 e.2.2.2))))

/-- Fitted simple linear regression line. -/
structure LinModel where
  slope : Rat
  intercept : Rat
deriving DecidableEq, Repr

/-- scikit-learn LinearRegression().fit on one predictor: the exact
least-squares closed form after centering. When every predictor value is
equal (zero centered variance) the minimum-norm least-squares solution has
slope zero, which is what the lstsq call inside scikit-learn returns; on
an empty input scikit-learn raises, modelled as none. -/
def fitLine (pts : List (Rat × Rat)) : Option LinModel :=
  if pts.isEmpty then none
  else
    let n : Rat := (pts.length : Rat)
    let xbar := (pts.map (fun p => p.1)).sum / n
    let ybar := (pts.map (fun p => p.2)).sum / n
    let sxx := (pts.map (fun p => (p.1 - xbar) * (p.1 - xbar))).sum
    let sxy := (pts.map (fun p => (p.1 - xbar) * (p.2 - ybar))).sum
    let slope := if sxx = 0 then 0 else sxy / sxx
    some ⟨slope, ybar - slope * xbar⟩

/-- Point prediction of a fitted line. -/
def predict (m : LinModel) (t : Rat) : Rat :=
  m.slope * t + m.intercept

/-- Python round(x, 2) idealized over the rationals. -/
def round2 (q : Rat) : Rat :=
  ((round (q * 100) : Int) : Rat) / 100

/-- The trend label computed at the end of seasonal_forecast: a strict
greater-than comparison of the forecast total against the historical
seasonal sum, with no third label. -/
def classifyTrend (total hist : Rat) : String :=
  if total > hist then "Increasing" else "Decreasing"

/-- Earliest record date of a dataframe (df date min). -/
def minD (df : List SRecord) : Date :=
  minDate (df.map (fun r => r.date))

/-- Latest record date of a dataframe (df date max). -/
def maxD (df : List SRecord) : Date :=
  maxDate (df.map (fun r => r.date))

/-- Elapsed days of a date from the anchor date, the days_since column. -/
def daysSince (d0 d : Date) : Rat :=
  ((toDays d - toDays d0 : Int) : Rat)

/-- Regression input for the sales model: (days_since, total_php) over the
whole dataframe passed to seasonal_forecast. -/
def pointsSales (df : List SRecord) : List (Rat × Rat) :=
  df.map (fun r => (daysSince (minD df) r.date, r.total_php))

/-- Regression input for the quantity model over the whole dataframe. -/
def pointsQty (df : List SRecord) : List (Rat × Rat) :=
  df.map (fun r => (daysSince (minD df) r.date, r.quantity))

/-- The sales model fitted inside seasonal_forecast. The default is never
reached: the callers only fit nonempty dataframes, on which fitLine
succeeds. -/
def modelSales (df : List SRecord) : LinModel :=
  (fitLine (pointsSales df)).getD ⟨0, 0⟩

/-- The quantity model fitted inside seasonal_forecast; same convention as
modelSales. -/
def modelQty (df : List SRecord) : LinModel :=
  (fitLine (pointsQty df)).getD ⟨0, 0⟩

/-- One emitted prediction row: date string, forecast_sales,
forecast_quantity. -/
structure PredEntry where
  date : String
  forecast_sales : Rat
  forecast_quantity : Rat
deriving DecidableEq, Repr

/-- The historical_predictions list of seasonal_forecast: for each season
month that has data, predict at the earliest date carrying that month.
Note there is no zero floor on this path. -/
def historicalPredictions (df : List SRecord) (months : List Nat) (scale : Rat) : List PredEntry :=
  months.filterMap (fun month =>
    let hd := df.filter (fun r => r.date.month == month)
    if hd.isEmpty then none
    else
      let fd := minDate (hd.map (fun r => r.date))
      let ds := daysSince (minD df) fd
      some ⟨formatDate fd, round2 (predict (modelSales df) ds * scale),
            round2 (predict (modelQty df) ds)⟩)

/-- The future daily dates of seasonal_forecast: one day past the last
record through six months later, restricted to the season months. -/
def futureDates (df : List SRecord) (months : List Nat) : List Date :=
  let start := ofDays (toDays (maxD df) + 1)
  let endD := addMonths 6 start
  (dateRange start (ofDays (toDays endD - 1))).filter (fun d => months.contains d.month)

/-- Unrounded floored sales total over the future dates (the running
total_sales accumulator). -/
def totalSales (df : List SRecord) (months : List Nat) (scale : Rat) : Rat :=
  ((futureDates df months).map (fun d =>
    max 0 (predict (modelSales df) (daysSince (minD df) d) * scale))).sum

/-- Unrounded floored quantity total over the future dates. -/
def totalQty (df : List SRecord) (months : List Nat) : Rat :=
  ((futureDates df months).map (fun d =>
    max 0 (predict (modelQty df) (daysSince (minD df) d)))).sum

/-- The future_predictions list: per-day predictions floored at zero and
rounded. -/
def futurePredictions (df : List SRecord) (months : List Nat) (scale : Rat) : List PredEntry :=
  (futureDates df months).map (fun d =>
    ⟨formatDate d, round2 (max 0 (predict (modelSales df) (daysSince (minD df) d) * scale)),
     round2 (max 0 (predict (modelQty df) (daysSince (minD df) d)))⟩)

/-- Historical sum of total_php over the records whose month lies in the
season months (the isin sum used as the trend baseline). -/
def histSalesSum (df : List SRecord) (months : List Nat) : Rat :=
  ((df.filter (fun r => months.contains r.date.month)).map (fun r => r.total_php)).sum

/-- Historical sum of quantity over the season months. -/
def histQtySum (df : List SRecord) (months : List Nat) : Rat :=
  ((df.filter (fun r => months.contains r.date.month)).map (fun r => r.quantity)).sum

/-- The summary block of seasonal_forecast. -/
structure Summary where
  label : String
  forecast_sales : Rat
  forecast_quantity : Rat
  trend_sales : String
  trend_quantity : String
deriving DecidableEq, Repr

/-- Builds the summary: rounded totals plus the two trend labels. -/
def mkSummary (df : List SRecord) (months : List Nat) (label : String) (scale : Rat) : Summary :=
  ⟨label, round2 (totalSales df months scale), round2 (totalQty df months),
   classifyTrend (totalSales df months scale) (histSalesSum df months),
   classifyTrend (totalQty df months) (histQtySum df months)⟩

/-- The value returned by seasonal_forecast. -/
structure SeasonalResult where
  summary : Summary
  historical_predictions : List PredEntry
  future_predictions : List PredEntry
deriving DecidableEq, Repr

/-- seasonal_forecast: fits both regressions on the whole dataframe it is
given (the callers pass the full record set, not a per-season subset) and
assembles the summary, historical and future prediction blocks. On an
empty dataframe the Python function raises inside scikit-learn, modelled
as none. -/
def seasonalForecast (df : List SRecord) (months : List Nat) (label : String) (scale : Rat) :
    Option SeasonalResult :=
  if df.isEmpty then none
  else some ⟨mkSummary df months label scale,
             historicalPredictions df months scale,
             futurePredictions df months scale⟩

/-- The per-season raw data block of the forecast response. -/
structure SeasonData where
  dates : List String
  sales : List Rat
  quantity : List Rat
deriving DecidableEq, Repr

/-- Builds a season's raw data block by the season column filter. -/
def mkSeasonData (df : List SRecord) (season : String) : SeasonData :=
  let sdf := df.filter (fun r => seasonOf r.date.month == season)
  ⟨sdf.map (fun r => formatDate r.date), sdf.map (fun r => r.total_php),
   sdf.map (fun r => r.quantity)⟩

/-- The JSON body of the forecast route. -/
structure ForecastResponse where
  forecast_data : List Summary
  dry_season_data : SeasonData
  rainy_season_data : SeasonData
  dry_forecast_monthly : List PredEntry
  rainy_forecast_monthly : List PredEntry
  dry_historical_predictions : List PredEntry
  rainy_historical_predictions : List PredEntry
deriving DecidableEq, Repr

/-- The dry season month list used by forecast_api. -/
def dryMonths : List Nat := [12, 1, 2, 3, 4, 5]

/-- The rainy season month list used by forecast_api. -/
def rainyMonths : List Nat := [6, 7, 8, 9, 10, 11]

/-- forecast_api: fetch and normalize the snapshot, run seasonal_forecast
once per season on the full dataframe, and assemble the response. The
empty dataframe propagates the scikit-learn failure as an error. -/
def forecastApi (docs : List RawDoc) : Except String ForecastResponse :=
  match getSalesData docs with
  | Except.error e => Except.error e
  | Except.ok df =>
    match seasonalForecast df dryMonths "🌞 Dry Season" 1,
          seasonalForecast df rainyMonths "🌧️ Rainy Season" 1 with
    | some dry, some rainy =>
      Except.ok ⟨[dry.summary, rainy.summary],
                 mkSeasonData df "Dry Season", mkSeasonData df "Rainy Season",
                 dry.future_predictions, rainy.future_predictions,
                 dry.historical_predictions, rainy.historical_predictions⟩
    | _, _ => Except.error "ValueError: empty data"

/-- Two full pipeline runs over the same snapshot. -/
def runTwice (docs : List RawDoc) : Except String ForecastResponse × Except String ForecastResponse :=
  (forecastApi docs, forecastApi docs)

/-- generate_forecast_dates: for each year offset below num_years and each
listed month, the first of that month in year today.year plus the offset,
kept only when strictly in the future of the reference date. -/
def generateForecastDates (months : List Nat) (numYears : Nat) (today : Date) : List Date :=
  (List.range numYears).flatMap (fun y =>
    months.filterMap (fun m =>
      let fd : Date := ⟨today.year + (y : Int), m, 1⟩
      if toDays today < toDays fd then some fd else none))

/-- First-occurrence order deduplication, as pandas Series.unique. -/
def dedupFirstAux : List String → List String → List String
  | [], acc => acc.reverse
  | c :: rest, acc =>
    if acc.contains c then dedupFirstAux rest acc else dedupFirstAux rest (c :: acc)

/-- The distinct categories of a dataframe in first-appearance order. -/
def dedupFirst (l : List String) : List String :=
  dedupFirstAux l []

/-- The month-collection loop of forecast_units_api: starting from the
first of the last record's month, step forward one month at a time and
keep the months whose month-of-year is a dry month, until twelve are
collected. The loop is given fuel; twenty-four steps always suffice since
any twenty-four consecutive months contain twelve dry ones. -/
def collectUnitMonths : Nat → Date → List Date → List Date
  | 0, _, acc => acc.reverse
  | fuel + 1, current, acc =>
    if acc.length ≥ 12 then acc.reverse
    else
      let c := addMonths 1 current
      collectUnitMonths fuel c (if [12, 1, 2, 3, 4, 5].contains c.month then c :: acc else acc)

/-- The twelve forecast months generated for a category from its last
record date. -/
def forecastMonths (lastDate : Date) : List Date :=
  collectUnitMonths 24 ⟨lastDate.year, lastDate.month, 1⟩ []

/-- One row of the units response. -/
structure UnitEntry where
  category : String
  forecast_quantity : Rat
  forecast_sales : Rat
deriving DecidableEq, Repr

/-- The inner category loop body of forecast_units_api: fit both models on
the category's rows of the season dataframe and predict the twelve
generated months, floored at zero and rounded. -/
def categoryForecast (sdf : List SRecord) (c : String) : List UnitEntry :=
  let catDf := sdf.filter (fun r => r.category == c)
  let d0 := minD catDf
  let mq := modelQty catDf
  let ms := modelSales catDf
  (forecastMonths (maxD catDf)).map (fun fd =>
    let ds := daysSince d0 fd
    ⟨c, round2 (max 0 (predict mq ds)), round2 (max 0 (predict ms ds))⟩)

/-- The per-season result entry of forecast_units_api: the season key of
the results dict is assigned inside the category loop, so each category
overwrites the previous one and a season with no categories never gets a
key; the fold over the distinct categories reproduces that repeated
assignment. -/
def forecastUnitsSeason (sdf : List SRecord) : Option (List UnitEntry) :=
  (dedupFirst (sdf.map (fun r => r.category))).foldl
    (fun _acc c => some (categoryForecast sdf c)) none

/-- forecast_units_api after normalization: the results dict over the two
seasons, as an association list that skips absent keys. The route body as
committed does not parse (the season loop body is not indented); this
models it with the indentation repaired as the inner indentation
implies. -/
def forecastUnits (df : List SRecord) : List (String × List UnitEntry) :=
  ["Dry Season", "Rainy Season"].filterMap (fun season =>
    (forecastUnitsSeason (df.filter (fun r => seasonOf r.date.month == season))).map
      (fun l => (season, l)))

/-- Pointwise equal functions give equal filterMap results. -/
lemma filterMap_congr_mem {α β : Type} (f g : α → Option β) :
    ∀ l : List α, (∀ a, a ∈ l → f a = g a) → l.filterMap f = l.filterMap g := by
  intro l h
  induction l with
  | nil => rfl
  | cons a t ih =>
    simp only [List.filterMap_cons]
    rw [h a (by simp)]
    cases g a <;> simp [ih (fun x hx => h x (by simp [hx]))]

/-- Rounding to two decimals preserves nonnegativity. -/
lemma round2_nonneg (q : Rat) (h : 0 ≤ q) : 0 ≤ round2 q := by
  unfold round2
  have h1 : (0 : Int) ≤ round (q * 100) := by
    rw [round_eq]
    refine Int.floor_nonneg.mpr ?_
    positivity
  positivity

/-- The month-collection loop only ever appends dry months. -/
lemma collectUnitMonths_all_dry (p : Date → Bool)
    (hp : ∀ d : Date, [12, 1, 2, 3, 4, 5].contains d.month = true → p d = true) :
    ∀ fuel cur acc, acc.all p = true → (collectUnitMonths fuel cur acc).all p = true := by
  intro fuel
  induction fuel with
  | zero => intro cur acc hacc; simpa [collectUnitMonths] using hacc
  | succ n ih =>
    intro cur acc hacc
    unfold collectUnitMonths
    split
    · simpa using hacc
    · apply ih
      split
      · rename_i hdry
        simp only [List.all_cons, Bool.and_eq_true]
        exact ⟨hp _ hdry, hacc⟩
      · exact hacc

/-- Claim C1: the spec says the trend classification is three-way, with a
Flat label on exact equality and classify(10,10) = Flat. The code has no
Flat branch: equality falls into the else arm and is labelled Decreasing,
refuted here at the spec's own example input. -/
theorem c1_counterexample :
    classifyTrend 10 10 = "Decreasing" ∧ classifyTrend 10 10 ≠ "Flat" := by
  constructor
  · decide
  · decide

/-- Claim C1, amended: the classification returns exactly one of two
labels, Increasing precisely when the prediction strictly exceeds the
baseline and Decreasing otherwise, including on exact equality; in
particular classify(16,14) = Increasing, classify(14,16) = Decreasing and
classify(10,10) = Decreasing. -/
theorem c1_theorem :
    (∀ p b : Rat, (classifyTrend p b = "Increasing" ↔ b < p) ∧
      (classifyTrend p b = "Decreasing" ↔ ¬ b < p)) ∧
    classifyTrend 16 14 = "Increasing" ∧ classifyTrend 14 16 = "Decreasing" ∧
    classifyTrend 10 10 = "Decreasing" := by
  refine ⟨fun p b => ?_, by decide, by decide, by decide⟩
  by_cases h : b < p
  · simp [classifyTrend, h]
  · simp [classifyTrend, h]

/-- Claim C8: the least-squares fit through (0,10), (1,12), (2,14) has
slope 2 and intercept 10, and predicting at time index 3 yields exactly
16. -/
theorem c8_theorem :
    fitLine [((0 : Rat), (10 : Rat)), (1, 12), (2, 14)] = some ⟨2, 10⟩ ∧
    (fitLine [((0 : Rat), (10 : Rat)), (1, 12), (2, 14)]).map (fun m => predict m 3) = some 16 := by
  constructor
  · decide
  · decide

/-- Claim C9: every one of the future months generated by the unit
forecast month loop lies in the dry month set 12, 1, 2, 3, 4, 5,
whatever the last record date was, hence also when the season being
forecast is the rainy season. -/
theorem c9_theorem (lastDate : Date) :
    (forecastMonths lastDate).all (fun d => [12, 1, 2, 3, 4, 5].contains d.month) = true := by
  unfold forecastMonths
  exact collectUnitMonths_all_dry _ (fun d h => h) 24 _ [] rfl

/-- Claim C9, witness: the generated months for a concrete last date all
lie in the dry set. -/
theorem c9_witness :
    (forecastMonths ⟨2024, 6, 15⟩).all (fun d => [12, 1, 2, 3, 4, 5].contains d.month) = true :=
  c9_theorem ⟨2024, 6, 15⟩

/-- Claim C10: the full forecast pipeline is a pure function of the
fetched snapshot; running it twice on the same snapshot gives the same
response value, hence identical serialized output. -/
theorem c10_theorem (docs : List RawDoc) : (runTwice docs).1 = (runTwice docs).2 := rfl

/-- Claim C4: the spec says a segment with fewer than two points signals
InsufficientData and is rendered as an error placeholder. The code has no
such signal: a one-point segment is fit anyway (scikit-learn returns the
minimum-norm solution, slope zero through the point) and the segment's
result is an ordinary numeric forecast row, shown here for a one-record
dataframe. -/
theorem c4_counterexample :
    fitLine [((0 : Rat), (7 : Rat))] = some ⟨0, 7⟩ ∧
    (seasonalForecast [⟨⟨2024, 1, 1⟩, 100, 2, "A"⟩] dryMonths "🌞 Dry Season" 1).map
      (fun r => r.historical_predictions) = some [⟨"2024-01-01", 100, 2⟩] := by
  constructor
  · decide
  · decide

/-- Claim C4, amended: a one-point segment is not rejected: the fit
succeeds with slope zero and intercept the single observed value, so
every prediction equals that value and no error placeholder is produced;
only an empty segment makes the fit fail (scikit-learn raises, modelled
as none). -/
theorem c4_theorem :
    (∀ x y : Rat, fitLine [(x, y)] = some ⟨0, y⟩) ∧
    fitLine ([] : List (Rat × Rat)) = none := by
  constructor
  · intro x y
    simp [fitLine]
  · rfl

/-- Claim C5: the spec says the next dry window always has end-year equal
to start-year plus one. The date generator only emits dates inside the
reference year: for reference date 2024-06-15 the dry-month dates are the
single date 2024-12-01, a window starting and ending in year 2024. -/
theorem c5_counterexample :
    generateForecastDates [12, 1, 2, 3, 4, 5] 1 ⟨2024, 6, 15⟩ = [⟨2024, 12, 1⟩] ∧
    (generateForecastDates [12, 1, 2, 3, 4, 5] 1 ⟨2024, 6, 15⟩).map (fun d => d.year) = [2024] ∧
    ((2024 : Int) = 2024 + 1) = False := by
  refine ⟨by decide, by decide, by simp⟩

/-- Claim C5, amended: with num_years equal to one (the value the code
always uses), every generated forecast date lies in the reference date's
own calendar year, for both seasons; the dry window therefore never wraps
a year boundary. -/
theorem c5_theorem (months : List Nat) (today : Date) :
    (generateForecastDates months 1 today).all (fun d => d.year == today.year) = true := by
  rw [List.all_eq_true]
  intro d hd
  simp only [generateForecastDates, List.mem_flatMap, List.mem_range, List.mem_filterMap] at hd
  obtain ⟨y, hy, m, _, heq⟩ := hd
  have hy0 : y = 0 := Nat.lt_one_iff.mp hy
  subst hy0
  split at heq
  · cases heq
    simp
  · cases heq

/-- Claim C6: the spec says an input where no raw record survives
normalization makes the Normalizer signal InsufficientData. For a
snapshot whose single document has every required field but an
unparsable date, the code instead returns the empty record set silently
as an ordinary success. -/
theorem c6_counterexample :
    getSalesData [⟨some "garbage", some 5, some 1, some "A"⟩] = Except.ok [] := by
  rfl

/-- Claim C6, amended: the normalizer never signals an InsufficientData
condition: the only failure it can produce is the KeyError raised when no
document carries all four required fields (the empty dataframe has no
date column); in every other case it returns the surviving records as an
ordinary success, even when that list is empty. -/
theorem c6_theorem (docs : List RawDoc) :
    getSalesData docs = Except.error "KeyError: date" ↔ presentFields docs = [] := by
  by_cases h : (presentFields docs).isEmpty
  · simp [getSalesData, h, List.isEmpty_iff.mp h]
  · simp only [getSalesData]
    rw [if_neg h]
    constructor
    · intro hcontra
      exact Except.noConfusion hcontra
    · intro hne
      exact absurd (by simp [hne] : (presentFields docs).isEmpty = true) h

/-- Unrounded future sales totals are sums of zero-floored terms. -/
lemma totalSales_nonneg (df : List SRecord) (months : List Nat) (scale : Rat) :
    0 ≤ totalSales df months scale := by
  unfold totalSales
  apply List.sum_nonneg
  intro x hx
  simp only [List.mem_map] at hx
  obtain ⟨d, _, rfl⟩ := hx
  exact le_max_left 0 _

/-- Unrounded future quantity totals are sums of zero-floored terms. -/
lemma totalQty_nonneg (df : List SRecord) (months : List Nat) :
    0 ≤ totalQty df months := by
  unfold totalQty
  apply List.sum_nonneg
  intro x hx
  simp only [List.mem_map] at hx
  obtain ⟨d, _, rfl⟩ := hx
  exact le_max_left 0 _

/-- Claim C7: the spec says every emitted forecast value is floored at
zero. The historical prediction path applies no floor: for three dry
records with amounts 0, 0, 300 the fitted line is negative at the first
date, and the emitted historical forecast_sales is negative. -/
theorem c7_counterexample :
    ((seasonalForecast
        [⟨⟨2024, 1, 1⟩, 0, 0, "A"⟩, ⟨⟨2024, 2, 1⟩, 0, 0, "A"⟩, ⟨⟨2024, 3, 1⟩, 300, 0, "A"⟩]
        dryMonths "🌞 Dry Season" 1).map
      (fun r => r.historical_predictions.any (fun e => decide (e.forecast_sales < 0)))).getD false
      = true := by
  decide

/-- Claim C7, amended: on the future-prediction path and in the summary
totals the floor is applied, so every future forecast_sales and
forecast_quantity and both summary totals are nonnegative; the
historical-prediction path carries no floor and can emit negative
values. -/
theorem c7_theorem (df : List SRecord) (months : List Nat) (label : String) (scale : Rat) :
    ((seasonalForecast df months label scale).map (fun res =>
      res.future_predictions.all
        (fun e => decide (0 ≤ e.forecast_sales) && decide (0 ≤ e.forecast_quantity)) &&
      decide (0 ≤ res.summary.forecast_sales) &&
      decide (0 ≤ res.summary.forecast_quantity))).getD true = true := by
  unfold seasonalForecast
  split
  · rfl
  · simp only [Option.map_some', Option.getD_some, Bool.and_eq_true, decide_eq_true_eq]
    refine ⟨⟨?_, ?_⟩, ?_⟩
    · unfold futurePredictions
      rw [List.all_eq_true]
      intro e he
      simp only [List.mem_map] at he
      obtain ⟨d, _, rfl⟩ := he
      simp only [Bool.and_eq_true, decide_eq_true_eq]
      exact ⟨round2_nonneg _ (le_max_left 0 _), round2_nonneg _ (le_max_left 0 _)⟩
    · exact round2_nonneg _ (totalSales_nonneg df months scale)
    · exact round2_nonneg _ (totalQty_nonneg df months)

/-- Claim C2: the spec says each season's forecast fits its trend model
only on that season's records. The callers pass the full dataframe and
the fit runs over all of it: two snapshots with identical dry-season
records but a different rainy-season amount produce different dry-season
historical predictions. -/
theorem c2_counterexample :
    ([⟨⟨2024, 1, 1⟩, 100, 1, "A"⟩, ⟨⟨2024, 2, 1⟩, 100, 1, "A"⟩,
        ⟨⟨2024, 6, 1⟩, 100, 1, "A"⟩] : List SRecord).filter
        (fun r => dryMonths.contains r.date.month) =
      ([⟨⟨2024, 1, 1⟩, 100, 1, "A"⟩, ⟨⟨2024, 2, 1⟩, 100, 1, "A"⟩,
        ⟨⟨2024, 6, 1⟩, 400, 1, "A"⟩] : List SRecord).filter
        (fun r => dryMonths.contains r.date.month) ∧
    (seasonalForecast
        [⟨⟨2024, 1, 1⟩, 100, 1, "A"⟩, ⟨⟨2024, 2, 1⟩, 100, 1, "A"⟩, ⟨⟨2024, 6, 1⟩, 100, 1, "A"⟩]
        dryMonths "🌞 Dry Season" 1).map (fun r => r.historical_predictions) ≠
      (seasonalForecast
        [⟨⟨2024, 1, 1⟩, 100, 1, "A"⟩, ⟨⟨2024, 2, 1⟩, 100, 1, "A"⟩, ⟨⟨2024, 6, 1⟩, 400, 1, "A"⟩]
        dryMonths "🌞 Dry Season" 1).map (fun r => r.historical_predictions) := by
  constructor
  · decide
  · decide

/-- Claim C2, amended: the trend models are fit on the whole record set,
so a season's forecast is determined by the full-data fitted models, the
overall first and last record dates, and the season's own records; it is
not a function of the season's records alone. -/
theorem c2_theorem (df1 df2 : List SRecord) (months : List Nat) (label : String) (scale : Rat)
    (h0 : df1.isEmpty = df2.isEmpty)
    (h1 : modelSales df1 = modelSales df2)
    (h2 : modelQty df1 = modelQty df2)
    (h3 : minD df1 = minD df2)
    (h4 : maxD df1 = maxD df2)
    (h5 : df1.filter (fun r => months.contains r.date.month) =
          df2.filter (fun r => months.contains r.date.month))
    (h6 : ∀ m, m ∈ months → df1.filter (fun r => r.date.month == m) =
          df2.filter (fun r => r.date.month == m)) :
    seasonalForecast df1 months label scale = seasonalForecast df2 months label scale := by
  have hfd : futureDates df1 months = futureDates df2 months := by
    simp only [futureDates]
    rw [h4]
  have hts : totalSales df1 months scale = totalSales df2 months scale := by
    simp only [totalSales]
    rw [hfd, h1, h3]
  have htq : totalQty df1 months = totalQty df2 months := by
    simp only [totalQty]
    rw [hfd, h2, h3]
  have hhs : histSalesSum df1 months = histSalesSum df2 months := by
    simp only [histSalesSum]
    rw [h5]
  have hhq : histQtySum df1 months = histQtySum df2 months := by
    simp only [histQtySum]
    rw [h5]
  have hhp : historicalPredictions df1 months scale = historicalPredictions df2 months scale := by
    simp only [historicalPredictions]
    refine filterMap_congr_mem _ _ months (fun m hm => ?_)
    rw [h6 m hm, h1, h2, h3]
  have hfp : futurePredictions df1 months scale = futurePredictions df2 months scale := by
    simp only [futurePredictions]
    rw [hfd, h1, h2, h3]
  simp only [seasonalForecast, mkSummary]
  rw [h0, hts, htq, hhs, hhq, hhp, hfp]

/-- Claim C2, witness: two orderings of the same two same-day records
satisfy every hypothesis and so get equal seasonal forecasts. -/
theorem c2_witness :
    seasonalForecast [⟨⟨2024, 1, 1⟩, 5, 1, "A"⟩, ⟨⟨2024, 1, 1⟩, 7, 2, "B"⟩] [6] "L" 1 =
    seasonalForecast [⟨⟨2024, 1, 1⟩, 7, 2, "B"⟩, ⟨⟨2024, 1, 1⟩, 5, 1, "A"⟩] [6] "L" 1 :=
  c2_theorem _ _ _ _ _ (by decide) (by decide) (by decide) (by decide) (by decide) (by decide)
    (fun m hm => by
      have hmem : m = 6 := by simpa using hm
      subst hmem
      decide)

/-- Claim C3: the units endpoint is claimed to return one entry per
distinct category of the season. With two dry-season categories A then B,
the response holds only the last category B (twelve monthly rows of it),
even though A occurs in the records; the rainy key is absent entirely.
The result rows also carry no season, historical_quantity, trend, dates
or quantities fields. -/
theorem c3_theorem :
    (forecastUnits [⟨⟨2024, 1, 1⟩, 100, 2, "A"⟩, ⟨⟨2024, 1, 2⟩, 50, 1, "B"⟩]).map
        (fun p => (p.1, p.2.map (fun e => e.category))) =
      [("Dry Season", List.replicate 12 "B")] ∧
    "A" ∈ ([⟨⟨2024, 1, 1⟩, 100, 2, "A"⟩, ⟨⟨2024, 1, 2⟩, 50, 1, "B"⟩] : List SRecord).map
      (fun r => r.category) := by
  constructor
  · decide
  · decide

/-- Claim C1, witness: the general statement applied at the equal pair
9, 9. -/
theorem c1_witness : classifyTrend 9 9 = "Decreasing" :=
  (c1_theorem.1 9 9).2.mpr (lt_irrefl 9)

/-- Claim C4, witness: the one-point statement applied at the point
(3, 9). -/
theorem c4_witness : fitLine [((3 : Rat), (9 : Rat))] = some ⟨0, 9⟩ :=
  c4_theorem.1 3 9

/-- Claim C5, witness: the single-year statement applied at a concrete
month list and reference date. -/
theorem c5_witness :
    (generateForecastDates [12, 1, 2, 3, 4, 5] 1 ⟨2024, 6, 15⟩).all
      (fun d => d.year == (⟨2024, 6, 15⟩ : Date).year) = true :=
  c5_theorem [12, 1, 2, 3, 4, 5] ⟨2024, 6, 15⟩

/-- Claim C6, witness: the error characterization applied at the empty
snapshot. -/
theorem c6_witness :
    getSalesData [] = Except.error "KeyError: date" ↔ presentFields [] = [] :=
  c6_theorem []

/-- Claim C7, witness: the nonnegativity statement applied at a concrete
one-record dataframe. -/
theorem c7_witness :
    ((seasonalForecast [⟨⟨2024, 1, 1⟩, 100, 2, "A"⟩] dryMonths "🌞 Dry Season" 1).map
      (fun res =>
        res.future_predictions.all
          (fun e => decide (0 ≤ e.forecast_sales) && decide (0 ≤ e.forecast_quantity)) &&
        decide (0 ≤ res.summary.forecast_sales) &&
        decide (0 ≤ res.summary.forecast_quantity))).getD true = true :=
  c7_theorem [⟨⟨2024, 1, 1⟩, 100, 2, "A"⟩] dryMonths "🌞 Dry Season" 1

/-- Claim C10, witness: determinism applied at a concrete snapshot. -/
theorem c10_witness :
    (runTwice [⟨some "2024-01-05", some 100, some 1, some "A"⟩]).1 =
    (runTwice [⟨some "2024-01-05", some 100, some 1, some "A"⟩]).2 :=
  c10_theorem [⟨some "2024-01-05", some 100, some 1, some "A"⟩]

end Forecast
